import Mathlib

/-!
Verification of the ParaProbe parameter-discovery tool (src/paraprobe.py).

The Python source is shallowly embedded below.  HTTP transport and the
`re` regex engine are external collaborators: a probe's transport result is
an explicit `TransportOutcome` input, and `re.search` is an explicit
function parameter of type `String → String → Except RegexError Bool`
(a search either raises a compile error or reports whether it matched).
Pattern construction, the detection heuristics, the baseline statistics
(including CPython's set iteration order, which `establish_baseline`
depends on), and the scan bookkeeping are embedded concretely.

Python integers are modelled as `Nat`/`Int` and the one float division in
the source (`length_diff / self.baseline_length`, compared against the
literal `0.05`) is modelled as exact rational division.
-/

namespace Paraprobe

/-! ## Python string membership (`needle in haystack`) -/

/-- Check whether `needle` is a prefix of `hay`, character by character. -/
def listEqTake : List Char → List Char → Bool
  | [], _ => true
  | _ :: _, [] => false
  | a :: as, b :: bs => a == b && listEqTake as bs

/-- Check whether `needle` occurs contiguously anywhere in `hay`. -/
def listHasSub (needle : List Char) : List Char → Bool
  | [] => listEqTake needle []
  | b :: bs => listEqTake needle (b :: bs) || listHasSub needle bs

/-- Python's `needle in haystack` on strings. -/
def pyIn (needle haystack : String) : Bool :=
  listHasSub needle.data haystack.data

/-! ## Data model -/

/-- Errors raised by Python builtins that the source can hit. -/
inductive PyError
  | indexError
  | valueError
  | zeroDivisionError
deriving DecidableEq, Repr

/-- Error raised by `re.search` when the pattern fails to compile. -/
inductive RegexError
  | compileError
deriving DecidableEq, Repr

/-- Response observed for one probe: `response.status_code` and `response.text`. -/
structure ProbeResponse where
  status_code : Nat
  text : String
deriving DecidableEq, Repr

/-- Result of one call through the HTTP transport: a response, a timeout
(`requests.exceptions.Timeout`), or any other transport exception. -/
inductive TransportOutcome
  | success (resp : ProbeResponse)
  | timeout
  | transportError
deriving DecidableEq, Repr

/-- Whether the transport call produced a response. -/
def TransportOutcome.isSuccess : TransportOutcome → Bool
  | .success _ => true
  | _ => false

/-- Baseline signature: fields `baseline_code`, `baseline_length`,
`baseline_reflection` of the `ParaProbe` object. -/
structure BaselineSig where
  baseline_code : Nat
  baseline_length : Nat
  baseline_reflection : Bool
deriving DecidableEq, Repr

/-- Reason attached to a finding, one constructor per branch of the
detection chain in `test_parameter`. -/
inductive Reason
  | status (code : Nat)
  | length (observed diff : Nat)
  | reflection
  | errorMessage
deriving DecidableEq, Repr

/-- Rendering of a `Reason` as the exact string the source stores. -/
def Reason.render : Reason → String
  | .status c => "Status: " ++ toString c
  | .length l d => "Length: " ++ toString l ++ " (diff: " ++ toString d ++ ")"
  | .reflection => "Reflection detected"
  | .errorMessage => "Error message detected"

/-- Record appended to `self.found_params` for a discovered parameter. -/
structure Finding where
  param : String
  method : String
  status : Nat
  length : Nat
  reason : Reason
deriving DecidableEq, Repr

/-- Mutable scan state shared by the workers: `self.total_requests` and
`self.found_params` (both mutated under `self.lock`). -/
structure ScanState where
  total_requests : Nat
  found_params : List Finding
deriving DecidableEq, Repr

/-! ## Error-message patterns (`check_error_messages`) -/

/-- Pattern list built in `check_error_messages`: the candidate name is
interpolated into each raw pattern string without any escaping. -/
def error_patterns (param : String) : List String :=
  [ "parameter ['\"]?" ++ param ++ "['\"]?",
    "missing.*" ++ param,
    param ++ ".*required",
    "invalid.*" ++ param,
    "undefined.*" ++ param,
    param ++ ".*not.*found",
    "expects.*" ++ param ]

/-- Loop of `check_error_messages`: try each pattern with `re.search`
(`reSearch`); the first match returns `True`, a raised regex error
propagates to the caller. -/
def check_error_go (reSearch : String → String → Except RegexError Bool)
    (response_text : String) : List String → Except RegexError Bool
  | [] => .ok false
  | pat :: rest =>
    match reSearch pat response_text with
    | .error e => .error e
    | .ok true => .ok true
    | .ok false => check_error_go reSearch response_text rest

/-- `check_error_messages(response_text, param)` from the source. -/
def check_error_messages (reSearch : String → String → Except RegexError Bool)
    (response_text param : String) : Except RegexError Bool :=
  check_error_go reSearch response_text (error_patterns param)

/-! ## Detection chain of `test_parameter` -/

/-- Length heuristic from the source:
`length_diff > 50 or (self.baseline_length > 0 and length_diff / self.baseline_length > 0.05)`,
with the float division modelled as exact rational division. -/
def length_check (baseline_length length_diff : Nat) : Bool :=
  decide (length_diff > 50) ||
    (decide (baseline_length > 0) &&
      decide ((length_diff : ℚ) / (baseline_length : ℚ) > 0.05))

/-- Absolute difference `abs(len(response.text) - self.baseline_length)`. -/
def natAbsDiff (a b : Nat) : Nat := ((a : Int) - (b : Int)).natAbs

/-- Detection chain of `test_parameter` (the `if/elif` ladder computing
`found` and `reason`); a regex error raised inside `check_error_messages`
propagates. Returns the reason for a finding, or `none`. -/
def classify (reSearch : String → String → Except RegexError Bool)
    (placeholder : String) (bl : BaselineSig) (param : String)
    (resp : ProbeResponse) : Except RegexError (Option Reason) :=
  let length_diff := natAbsDiff resp.text.length bl.baseline_length
  let reflection := pyIn placeholder resp.text
  if resp.status_code ≠ bl.baseline_code then
    .ok (some (.status resp.status_code))
  else if length_check bl.baseline_length length_diff then
    .ok (some (.length resp.text.length length_diff))
  else if reflection ≠ bl.baseline_reflection then
    .ok (some .reflection)
  else
    match check_error_messages reSearch resp.text param with
    | .error e => .error e
    | .ok true => .ok (some .errorMessage)
    | .ok false => .ok none

/-- `test_parameter(param)`.  The whole body runs inside one `try`:
a transport timeout or error returns `False` with the state untouched;
after a successful request `self.total_requests` is incremented under the
lock, then the detection chain runs; any exception it raises (notably a
regex compile error) is swallowed by the bare `except`, returning `False`
with the counter already incremented. -/
def test_parameter (reSearch : String → String → Except RegexError Bool)
    (method placeholder : String) (bl : BaselineSig) (st : ScanState)
    (param : String) (outcome : TransportOutcome) : Bool × ScanState :=
  match outcome with
  | .timeout => (false, st)
  | .transportError => (false, st)
  | .success resp =>
    let st1 : ScanState := { st with total_requests := st.total_requests + 1 }
    match classify reSearch placeholder bl param resp with
    | .error _ => (false, st1)
    | .ok none => (false, st1)
    | .ok (some reason) =>
      (true, { st1 with found_params := st1.found_params ++
        [{ param := param, method := method, status := resp.status_code,
           length := resp.text.length, reason := reason }] })

/-- One worker step as seen by the shared state. -/
def scanStep (reSearch : String → String → Except RegexError Bool)
    (method placeholder : String) (bl : BaselineSig)
    (outcomes : String → TransportOutcome) (st : ScanState)
    (param : String) : ScanState :=
  (test_parameter reSearch method placeholder bl st param (outcomes param)).2

/-- Probing phase of `scan`: every queued candidate is processed exactly
once by some worker; since both pieces of shared state are mutated under
one lock, the concurrent execution is equivalent to a sequential fold over
the candidates in some completion order (`order`). -/
def runScan (reSearch : String → String → Except RegexError Bool)
    (method placeholder : String) (bl : BaselineSig)
    (outcomes : String → TransportOutcome) (order : List String) : ScanState :=
  order.foldl (scanStep reSearch method placeholder bl outcomes)
    { total_requests := 0, found_params := [] }

/-! ## CPython set iteration order

`establish_baseline` computes `max(set(lengths), key=lengths.count)`, so
its tie-break depends on the iteration order of a CPython `set` of small
non-negative ints (`hash(n) = n`).  We model the hash table exactly for
the regime the source uses it in: the initial table of size 8, which
CPython only resizes once a fifth distinct element is inserted (the
baseline takes `stable_check` samples, 3 by default).  An insert probes
slot `hash & 7` first and on collision follows
`perturb >>= 5; i = (i*5 + 1 + perturb) & 7` (the table is too small for
the linear-probe fast path); iteration yields occupied slots in table
order. -/

/-- Probe for the slot of `x` (hash `x`): returns the index of the first
slot that is empty or already holds `x`.  `fuel` bounds the probe walk. -/
def setFindSlot (table : List (Option Nat)) (x : Nat) :
    Nat → Nat → Nat → Option Nat
  | 0, _, _ => none
  | fuel + 1, i, perturb =>
    match table.get? i with
    | none => none
    | some none => some i
    | some (some y) =>
      if y = x then some i
      else
        let perturb2 := perturb / 32
        setFindSlot table x fuel ((i * 5 + 1 + perturb2) % 8) perturb2

/-- Insert `x` into the table (no resize: valid while the set holds fewer
than five distinct elements, CPython's growth threshold for size 8). -/
def setInsert (table : List (Option Nat)) (x : Nat) : List (Option Nat) :=
  match setFindSlot table x 64 (x % 8) x with
  | none => table
  | some i => table.set i (some x)

/-- Elements of the Python set `set(xs)` in iteration order. -/
def pySetList (xs : List Nat) : List Nat :=
  let table := xs.foldl setInsert (List.replicate 8 none)
  table.foldr (fun slot acc => match slot with | none => acc | some v => v :: acc) []

/-- Python's `max(iterable, key=key)`: raises `ValueError` on an empty
iterable, otherwise returns the first element attaining the maximal key
(later elements replace the champion only on a strictly larger key). -/
def pyMaxByKey (key : Nat → Nat) : List Nat → Except PyError Nat
  | [] => .error .valueError
  | x :: xs => .ok (xs.foldl (fun best y => if key y > key best then y else best) x)

/-! ## Baseline estimator (`establish_baseline`) -/

/-- One baseline control request's observations: `response.status_code`,
`len(response.text)`, and `self.placeholder in response.text`. -/
structure BaselineSample where
  code : Nat
  length : Nat
  reflected : Bool
deriving DecidableEq, Repr

/-- Samples collected by the loop `for i in range(self.stable_check)`;
`stable_check` is an arbitrary Python int, and a non-positive value
yields no iterations.  Each control request is assumed to complete (a
transport failure there calls `sys.exit(1)`, outside this model). -/
def sampledBaseline (stable_check : Int) (o : Nat → BaselineSample) :
    List BaselineSample :=
  (List.range stable_check.toNat).map o

/-- Status codes treated as redirects by the baseline warning. -/
def redirect_codes : List Nat := [301, 302, 303, 307, 308]

/-- Sampled `codes` list of `establish_baseline`. -/
def baselineCodes (stable_check : Int) (o : Nat → BaselineSample) : List Nat :=
  (sampledBaseline stable_check o).map BaselineSample.code

/-- Sampled `lengths` list of `establish_baseline`. -/
def baselineLengths (stable_check : Int) (o : Nat → BaselineSample) : List Nat :=
  (sampledBaseline stable_check o).map BaselineSample.length

/-- Sampled `reflections` list of `establish_baseline`. -/
def baselineReflections (stable_check : Int) (o : Nat → BaselineSample) : List Bool :=
  (sampledBaseline stable_check o).map BaselineSample.reflected

/-- `establish_baseline`.  After sampling, the source runs
`if all(c in [301,302,303,307,308] for c in codes): print(..., codes[0], ...)`;
on an empty sample list the `all` is vacuously true and `codes[0]` raises
`IndexError` (uncaught).  Otherwise the final signature is computed with
`max(set(...), key=....count)` for lengths and codes, and
`any(reflections)`. -/
def establish_baseline (stable_check : Int) (o : Nat → BaselineSample) :
    Except PyError BaselineSig :=
  if (baselineCodes stable_check o).all (fun c => redirect_codes.contains c) &&
      (baselineCodes stable_check o).isEmpty then
    .error .indexError
  else
    match pyMaxByKey (fun v => (baselineLengths stable_check o).count v)
            (pySetList (baselineLengths stable_check o)),
          pyMaxByKey (fun v => (baselineCodes stable_check o).count v)
            (pySetList (baselineCodes stable_check o)) with
    | .ok bl, .ok bc =>
      .ok { baseline_code := bc, baseline_length := bl,
            baseline_reflection := (baselineReflections stable_check o).any id }
    | .error e, _ => .error e
    | .ok _, .error e => .error e

/-- Distinct values of a list in first-seen order. -/
def firstSeenAux (seen : List Nat) : List Nat → List Nat
  | [] => []
  | x :: xs =>
    if seen.contains x then firstSeenAux seen xs
    else x :: firstSeenAux (x :: seen) xs

/-- Modelled from the spec: "statusCode = the most frequently occurring
code among samples (ties broken by first-seen order)".  Used only to
compare the spec's tie-break rule with the source's. -/
def modalFirstSeen (xs : List Nat) : Option Nat :=
  match firstSeenAux [] xs with
  | [] => none
  | d :: ds => some ((d :: ds).foldl (fun best y => if xs.count y > xs.count best then y else best) d)

/-! ## Regex pattern well-formedness and escaping -/

/-- Characters Python's `re.escape` backslash-escapes. -/
def reSpecialChars : List Char :=
  "()[]\x7b\x7d?*+-|^$\\.&~# \t\n\r\x0b\x0c".data

/-- Model of Python's `re.escape`. -/
def reEscape (s : String) : String :=
  String.mk (s.data.foldr
    (fun c acc => if reSpecialChars.contains c then '\\' :: c :: acc else c :: acc) [])

/-- Structural well-formedness check on a regex pattern, tracking group
depth, character classes and backslash escapes.  It captures three ways a
pattern fails to compile under Python's `re`: an unmatched `(` or `)`
outside a class, an unterminated `[...]` class, and a trailing backslash.
A pattern violating it raises `re.error` at `re.search`. -/
def regexBalancedAux : List Char → Nat → Bool → Bool → Bool
  | [], depth, inClass, esc => depth == 0 && !inClass && !esc
  | c :: rest, depth, inClass, esc =>
    if esc then regexBalancedAux rest depth inClass false
    else if c == '\\' then regexBalancedAux rest depth inClass true
    else if inClass then
      (if c == ']' then regexBalancedAux rest depth false false
       else regexBalancedAux rest depth true false)
    else if c == '[' then regexBalancedAux rest depth true false
    else if c == '(' then regexBalancedAux rest (depth + 1) inClass false
    else if c == ')' then
      (decide (depth ≠ 0) && regexBalancedAux rest (depth - 1) inClass false)
    else regexBalancedAux rest depth inClass false

/-- Whether a pattern passes the structural compile check. -/
def regexBalanced (pat : String) : Bool :=
  regexBalancedAux pat.data 0 false false

/-! ## Constructor and coordinator bookkeeping -/

/-- Arguments stored by `ParaProbe.__init__`. -/
structure InitConfig where
  url : String
  method : String
  threads : Int
  delay : ℚ
  placeholder : String
  stable_check : Int
  follow_redirects : Bool
deriving DecidableEq, Repr

/-- Startup configuration error postulated by the spec (`InvalidConfig`). -/
inductive InitError
  | invalidConfig
deriving DecidableEq, Repr

/-- `ParaProbe.__init__`: stores its arguments (upper-casing the method)
and performs no validation whatsoever — in particular no check on
`threads` — so it never raises. -/
def paraProbeInit (cfg : InitConfig) : Except InitError InitConfig :=
  .ok { cfg with method := cfg.method.toUpper }

/-- Number of worker threads `scan` starts: `for _ in range(self.threads)`.
A non-positive thread count yields an empty range, hence zero workers. -/
def spawnedWorkers (threads : Int) : Nat :=
  (List.range threads.toNat).length

/-- Python's true division `a / b`: raises `ZeroDivisionError` when the
divisor is zero. -/
def pyTrueDiv (a b : ℚ) : Except PyError ℚ :=
  if b = 0 then .error .zeroDivisionError else .ok (a / b)

/-- Final report line of `scan`: `self.total_requests/elapsed`, with no
guard on `elapsed`. -/
def requestsPerSec (total_requests : Nat) (elapsed : ℚ) : Except PyError ℚ :=
  pyTrueDiv (total_requests : ℚ) elapsed

/-! ## Concrete instances used in example runs -/

/-- Regex engine that never matches and never raises. -/
def eng0 : String → String → Except RegexError Bool := fun _ _ => .ok false

/-- Regex engine that raises a compile error exactly on structurally
invalid patterns, and otherwise reports no match. -/
def strictEngine : String → String → Except RegexError Bool := fun pat _ =>
  if regexBalanced pat then .ok false else .error .compileError

/-- Response body of `n` repetitions of one character. -/
def bigText (n : Nat) : String := String.mk (List.replicate n 'a')

/-- Transport oracle: every candidate succeeds with a status-divergent response. -/
def outcSuccess : String → TransportOutcome := fun _ => .success ⟨500, "x"⟩

/-- Transport oracle: the candidate `"boom"` times out, every other succeeds. -/
def outc4 : String → TransportOutcome := fun p =>
  if p = "boom" then .timeout else .success ⟨500, "x"⟩

/-- Baseline sample run with a 500 followed by a 200 (a frequency tie). -/
def cexSamples : Nat → BaselineSample := fun i =>
  if i = 0 then ⟨500, 100, false⟩ else ⟨200, 100, false⟩

/-- Baseline sample run with codes `[200, 200, 500]` and lengths `[100, 105, 100]`. -/
def modalSamples : Nat → BaselineSample := fun i =>
  if i = 0 then ⟨200, 100, false⟩ else if i = 1 then ⟨200, 105, false⟩ else ⟨500, 100, false⟩

/-- Configuration with a zero worker count. -/
def cfg0 : InitConfig :=
  { url := "http://example.com", method := "GET", threads := 0, delay := 0,
    placeholder := "FUZZ", stable_check := 3, follow_redirects := false }

/-! ## Helper lemmas -/

/-- Unfolding of the detection chain. -/
theorem classify_eq (reSearch : String → String → Except RegexError Bool)
    (placeholder : String) (bl : BaselineSig) (param : String) (resp : ProbeResponse) :
    classify reSearch placeholder bl param resp =
      (if resp.status_code ≠ bl.baseline_code then
        .ok (some (.status resp.status_code))
      else if length_check bl.baseline_length (natAbsDiff resp.text.length bl.baseline_length) then
        .ok (some (.length resp.text.length (natAbsDiff resp.text.length bl.baseline_length)))
      else if pyIn placeholder resp.text ≠ bl.baseline_reflection then
        .ok (some .reflection)
      else
        match check_error_messages reSearch resp.text param with
        | .error e => .error e
        | .ok true => .ok (some .errorMessage)
        | .ok false => .ok none) := rfl

/-- Integer form of the length heuristic: the exact rational comparison
`length_diff / baseline_length > 0.05` is `baseline_length < 20 * length_diff`. -/
theorem length_check_eq (b d : Nat) :
    length_check b d =
      (decide (d > 50) || (decide (b > 0) && decide (b < 20 * d))) := by
  unfold length_check
  rcases Nat.eq_zero_or_pos b with hb | hb
  · subst hb; simp
  · have h1 : decide (b > 0) = true := by simpa using hb
    rw [h1]
    simp only [Bool.true_and]
    have hiff : ((d : ℚ) / (b : ℚ) > 0.05) ↔ b < 20 * d := by
      have hbq : (0 : ℚ) < (b : ℚ) := by exact_mod_cast hb
      rw [gt_iff_lt, lt_div_iff₀ hbq]
      have h5 : (0.05 : ℚ) = 1 / 20 := by norm_num
      constructor
      · intro h
        rw [h5] at h
        have h2 : (b : ℚ) < 20 * d := by linarith
        exact_mod_cast h2
      · intro h
        have h2 : (b : ℚ) < 20 * d := by exact_mod_cast h
        rw [h5]
        linarith
    rw [decide_eq_decide.mpr hiff]

/-! ## C1: status divergence has first priority -/

/-- C1: the detector applies its signals in fixed priority order with first
match winning: a status-code divergence always yields the status reason,
whatever the length difference, reflection state, or error-message matcher
would say; the length reason implies status matched; the reflection reason
implies status matched and the length heuristic failed; the error-message
reason implies all three earlier signals failed. -/
theorem claim_status_priority
    (reSearch : String → String → Except RegexError Bool)
    (placeholder : String) (bl : BaselineSig) (param : String) (resp : ProbeResponse) :
    (resp.status_code ≠ bl.baseline_code →
      classify reSearch placeholder bl param resp = .ok (some (.status resp.status_code))) ∧
    (∀ l d, classify reSearch placeholder bl param resp = .ok (some (.length l d)) →
      resp.status_code = bl.baseline_code) ∧
    (classify reSearch placeholder bl param resp = .ok (some .reflection) →
      resp.status_code = bl.baseline_code ∧
      length_check bl.baseline_length (natAbsDiff resp.text.length bl.baseline_length) = false) ∧
    (classify reSearch placeholder bl param resp = .ok (some .errorMessage) →
      resp.status_code = bl.baseline_code ∧
      length_check bl.baseline_length (natAbsDiff resp.text.length bl.baseline_length) = false ∧
      pyIn placeholder resp.text = bl.baseline_reflection) := by
  rw [classify_eq]
  by_cases hc : resp.status_code ≠ bl.baseline_code
  · simp only [if_pos hc]
    exact ⟨fun _ => by simp, fun l d h => by simp at h, fun h => by simp at h, fun h => by simp at h⟩
  · simp only [if_neg hc]
    have heq : resp.status_code = bl.baseline_code := not_not.mp hc
    by_cases hl : length_check bl.baseline_length
        (natAbsDiff resp.text.length bl.baseline_length) = true
    · simp only [if_pos hl]
      exact ⟨fun h => absurd h hc, fun _ _ _ => heq,
        fun h => by simp at h, fun h => by simp at h⟩
    · simp only [if_neg hl]
      by_cases hr : pyIn placeholder resp.text ≠ bl.baseline_reflection
      · simp only [if_pos hr]
        exact ⟨fun h => absurd h hc, fun l d h => by simp at h,
          fun _ => ⟨heq, by simpa using hl⟩, fun h => by simp at h⟩
      · simp only [if_neg hr]
        exact ⟨fun h => absurd h hc, fun _ _ _ => heq,
          fun _ => ⟨heq, by simpa using hl⟩,
          fun _ => ⟨heq, by simpa using hl, not_not.mp hr⟩⟩

/-- Witness for C1: status 500 against baseline 200 with a huge length
difference (body length 1 against baseline length 10000) still reports the
status reason. -/
theorem claim_status_priority_witness :
    classify eng0 "FUZZ" ⟨200, 10000, false⟩ "id" ⟨500, "x"⟩ = .ok (some (.status 500)) :=
  (claim_status_priority eng0 "FUZZ" ⟨200, 10000, false⟩ "id" ⟨500, "x"⟩).1 (by decide)

/-! ## C2: the dual length threshold -/

/-- C2: when the status code matches the baseline, the detector reports the
length reason exactly when `|diff| > 50` or (`baseline_length > 0` and the
relative difference exceeds `0.05`); and when the length heuristic fails,
the reflection state is unchanged and the error matcher reports no match,
the probe yields no finding at all. -/
theorem claim_length_threshold
    (reSearch : String → String → Except RegexError Bool)
    (placeholder : String) (bl : BaselineSig) (param : String) (resp : ProbeResponse)
    (hstatus : resp.status_code = bl.baseline_code) :
    (classify reSearch placeholder bl param resp =
        .ok (some (.length resp.text.length (natAbsDiff resp.text.length bl.baseline_length))) ↔
      length_check bl.baseline_length (natAbsDiff resp.text.length bl.baseline_length) = true) ∧
    (length_check bl.baseline_length (natAbsDiff resp.text.length bl.baseline_length) = false →
      pyIn placeholder resp.text = bl.baseline_reflection →
      check_error_messages reSearch resp.text param = .ok false →
      classify reSearch placeholder bl param resp = .ok none) := by
  rw [classify_eq]
  have hcc : ¬(resp.status_code ≠ bl.baseline_code) := fun h => h hstatus
  simp only [if_neg hcc]
  constructor
  · constructor
    · intro h
      by_contra hl
      rw [if_neg hl] at h
      split_ifs at h with hr
      · simp at h
      · rcases hcem : check_error_messages reSearch resp.text param with e | b
        · rw [hcem] at h; simp at h
        · rw [hcem] at h; cases b <;> simp at h
    · intro hl
      rw [if_pos hl]
  · intro hl hr hcem
    rw [if_neg (by simp [hl]), if_neg (by simp [hr]), hcem]

/-- Length of the replicated body. -/
theorem bigText_length (n : Nat) : (bigText n).length = n := by
  simp [bigText, String.length]

/-- A needle starting with a character absent from a replicated body never
occurs in it. -/
theorem listHasSub_replicate (c0 h : Char) (t : List Char) (hne : (h == c0) = false) :
    ∀ n, listHasSub (h :: t) (List.replicate n c0) = false := by
  intro n
  induction n with
  | zero => simp [listHasSub, listEqTake]
  | succ n ih =>
    rw [List.replicate_succ]
    simp [listHasSub, listEqTake, hne, ih]

/-- The placeholder `FUZZ` does not occur in the replicated body. -/
theorem pyIn_bigText (n : Nat) : pyIn "FUZZ" (bigText n) = false := by
  have h : ("FUZZ".data) = 'F' :: "UZZ".data := rfl
  show listHasSub "FUZZ".data (bigText n).data = false
  rw [h]
  show listHasSub ('F' :: "UZZ".data) (List.replicate n 'a') = false
  exact listHasSub_replicate 'a' 'F' _ (by decide) n

/-- Witness for C2: baseline length 10000 with body length 10400 (4%
relative, 400 absolute) reports the length reason, while body length 10040
(0.4% relative, 40 absolute), with unchanged reflection and no
error-message match, yields no finding. -/
theorem claim_length_threshold_witness :
    classify eng0 "FUZZ" ⟨200, 10000, false⟩ "id" ⟨200, bigText 10400⟩ =
      .ok (some (.length 10400 400)) ∧
    classify eng0 "FUZZ" ⟨200, 10000, false⟩ "id" ⟨200, bigText 10040⟩ = .ok none := by
  have e1 : (bigText 10400).length = 10400 := bigText_length _
  have e2 : (bigText 10040).length = 10040 := bigText_length _
  constructor
  · have h := (claim_length_threshold eng0 "FUZZ" ⟨200, 10000, false⟩ "id"
      ⟨200, bigText 10400⟩ rfl).1.mpr (by
        show length_check 10000 (natAbsDiff (bigText 10400).length 10000) = true
        rw [e1]
        decide)
    rw [show (⟨200, bigText 10400⟩ : ProbeResponse).text.length = 10400 from e1] at h
    rw [show natAbsDiff 10400 10000 = 400 by decide] at h
    exact h
  · exact (claim_length_threshold eng0 "FUZZ" ⟨200, 10000, false⟩ "id"
      ⟨200, bigText 10040⟩ rfl).2
      (by
        show length_check 10000 (natAbsDiff (bigText 10040).length 10000) = false
        rw [e2]
        rw [show natAbsDiff 10040 10000 = 40 by decide]
        rw [length_check_eq]
        decide)
      (pyIn_bigText 10040)
      rfl

/-! ## Scan-state lemmas -/

/-- A probe appends at most one finding, and any finding it appends carries
the probed candidate's name. -/
theorem test_parameter_found (reSearch : String → String → Except RegexError Bool)
    (method placeholder : String) (bl : BaselineSig) (st : ScanState)
    (param : String) (outc : TransportOutcome) :
    ∃ opt : List Finding,
      (test_parameter reSearch method placeholder bl st param outc).2.found_params =
        st.found_params ++ opt ∧
      List.Sublist (opt.map Finding.param) [param] := by
  cases outc with
  | timeout => exact ⟨[], by simp [test_parameter], by simp⟩
  | transportError => exact ⟨[], by simp [test_parameter], by simp⟩
  | success resp =>
    unfold test_parameter
    cases hcl : classify reSearch placeholder bl param resp with
    | error e => exact ⟨[], by simp [hcl], by simp⟩
    | ok ob =>
      cases ob with
      | none => exact ⟨[], by simp [hcl], by simp⟩
      | some r =>
        exact ⟨[{ param := param, method := method, status := resp.status_code,
                  length := resp.text.length, reason := r }], by simp [hcl], by simp⟩

/-- The request counter increments exactly on successful transport. -/
theorem test_parameter_total (reSearch : String → String → Except RegexError Bool)
    (method placeholder : String) (bl : BaselineSig) (st : ScanState)
    (param : String) (outc : TransportOutcome) :
    (test_parameter reSearch method placeholder bl st param outc).2.total_requests =
      st.total_requests + (if outc.isSuccess then 1 else 0) := by
  cases outc with
  | timeout => simp [test_parameter, TransportOutcome.isSuccess]
  | transportError => simp [test_parameter, TransportOutcome.isSuccess]
  | success resp =>
    unfold test_parameter
    cases hcl : classify reSearch placeholder bl param resp with
    | error e => simp [hcl, TransportOutcome.isSuccess]
    | ok ob => cases ob <;> simp [hcl, TransportOutcome.isSuccess]

/-- Findings accumulated by a scan segment: an append whose names form a
subsequence of the processed candidates. -/
theorem runScanFrom_found (reSearch : String → String → Except RegexError Bool)
    (method placeholder : String) (bl : BaselineSig)
    (outcomes : String → TransportOutcome) :
    ∀ (order : List String) (st : ScanState),
      ∃ extra : List Finding,
        (order.foldl (scanStep reSearch method placeholder bl outcomes) st).found_params =
          st.found_params ++ extra ∧
        List.Sublist (extra.map Finding.param) order := by
  intro order
  induction order with
  | nil => intro st; exact ⟨[], (List.append_nil _).symm, by simp⟩
  | cons a t ih =>
    intro st
    obtain ⟨opt, hopt, hsubopt⟩ :=
      test_parameter_found reSearch method placeholder bl st a (outcomes a)
    obtain ⟨extra, hex, hsub⟩ := ih (scanStep reSearch method placeholder bl outcomes st a)
    refine ⟨opt ++ extra, ?_, ?_⟩
    · rw [List.foldl_cons, hex,
        show (scanStep reSearch method placeholder bl outcomes st a).found_params =
          st.found_params ++ opt from hopt,
        List.append_assoc]
    · rw [List.map_append]
      exact List.Sublist.append hsubopt hsub

/-- Request count over a scan segment whose probes all succeed. -/
theorem runScanFrom_total (reSearch : String → String → Except RegexError Bool)
    (method placeholder : String) (bl : BaselineSig)
    (outcomes : String → TransportOutcome) :
    ∀ (order : List String) (st : ScanState),
      (∀ p ∈ order, (outcomes p).isSuccess = true) →
      (order.foldl (scanStep reSearch method placeholder bl outcomes) st).total_requests =
        st.total_requests + order.length := by
  intro order
  induction order with
  | nil => intro st _; simp
  | cons a t ih =>
    intro st hall
    rw [List.foldl_cons, ih _ (fun p hp => hall p (List.mem_cons_of_mem a hp))]
    have hs : (scanStep reSearch method placeholder bl outcomes st a).total_requests =
        st.total_requests + 1 := by
      unfold scanStep
      rw [test_parameter_total, hall a (List.mem_cons_self a t)]
      simp
    rw [hs, List.length_cons]
    omega

/-! ## C4: transport failures are skipped, never fatal -/

/-- C4: a candidate whose probe times out or raises a transport error is
treated as no finding: the probe leaves the scan state untouched, the run
over the remaining candidates proceeds exactly as if that candidate's probe
had not happened (no retry), and no finding with that candidate's name ever
appears unless the name occurs elsewhere in the queue. -/
theorem claim_transport_error_skipped
    (reSearch : String → String → Except RegexError Bool)
    (method placeholder : String) (bl : BaselineSig)
    (outcomes : String → TransportOutcome) (st : ScanState)
    (pre post : List String) (c : String)
    (herr : outcomes c = .timeout ∨ outcomes c = .transportError) :
    test_parameter reSearch method placeholder bl st c (outcomes c) = (false, st) ∧
    runScan reSearch method placeholder bl outcomes (pre ++ c :: post) =
      runScan reSearch method placeholder bl outcomes (pre ++ post) ∧
    (c ∉ pre ++ post →
      ∀ f ∈ (runScan reSearch method placeholder bl outcomes (pre ++ c :: post)).found_params,
        f.param ≠ c) := by
  have hstep : ∀ A : ScanState, scanStep reSearch method placeholder bl outcomes A c = A := by
    intro A
    unfold scanStep
    rcases herr with h | h <;> rw [h] <;> rfl
  have hrun : runScan reSearch method placeholder bl outcomes (pre ++ c :: post) =
      runScan reSearch method placeholder bl outcomes (pre ++ post) := by
    unfold runScan
    rw [List.foldl_append, List.foldl_cons, hstep, ← List.foldl_append]
  refine ⟨?_, hrun, ?_⟩
  · rcases herr with h | h <;> rw [h] <;> rfl
  · intro hcnot f hf
    rw [hrun] at hf
    obtain ⟨extra, hex, hsub⟩ := runScanFrom_found reSearch method placeholder bl outcomes
      (pre ++ post) { total_requests := 0, found_params := [] }
    unfold runScan at hf
    rw [hex] at hf
    simp only [List.nil_append] at hf
    intro hpc
    apply hcnot
    rw [← hpc]
    exact hsub.subset (List.mem_map_of_mem Finding.param hf)

/-- Witness for C4: with a queue `["a", "boom", "b"]` where `"boom"` times
out, the scan produces exactly the state of the queue `["a", "b"]`. -/
theorem claim_transport_error_skipped_witness :
    runScan eng0 "GET" "FUZZ" ⟨200, 0, false⟩ outc4 (["a"] ++ "boom" :: ["b"]) =
      runScan eng0 "GET" "FUZZ" ⟨200, 0, false⟩ outc4 (["a"] ++ ["b"]) :=
  (claim_transport_error_skipped eng0 "GET" "FUZZ" ⟨200, 0, false⟩ outc4
    ⟨0, []⟩ ["a"] ["b"] "boom" (Or.inl (by decide))).2.1

/-! ## C8: every candidate probed exactly once -/

/-- C8: for a wordlist of `N` unique names and any worker count `C` with
`1 ≤ C ≤ N`, a scan that processes the queued names in any completion
order with no transport errors ends with `total_requests = N`, and the
findings carry pairwise-distinct parameter names — at most one finding per
candidate name. -/
theorem claim_each_probed_once
    (reSearch : String → String → Except RegexError Bool)
    (method placeholder : String) (bl : BaselineSig)
    (outcomes : String → TransportOutcome)
    (params order : List String) (C : Nat)
    (hC1 : 1 ≤ C) (hC2 : C ≤ params.length)
    (hnodup : params.Nodup) (hperm : List.Perm order params)
    (hok : ∀ p ∈ params, (outcomes p).isSuccess = true) :
    (runScan reSearch method placeholder bl outcomes order).total_requests = params.length ∧
    ((runScan reSearch method placeholder bl outcomes order).found_params.map
      Finding.param).Nodup ∧
    ∀ name, ((runScan reSearch method placeholder bl outcomes order).found_params.map
      Finding.param).count name ≤ 1 := by
  have hokord : ∀ p ∈ order, (outcomes p).isSuccess = true :=
    fun p hp => hok p (hperm.mem_iff.mp hp)
  have hlen : order.length = params.length := hperm.length_eq
  have hnd : order.Nodup := hperm.nodup_iff.mpr hnodup
  obtain ⟨extra, hex, hsub⟩ := runScanFrom_found reSearch method placeholder bl outcomes
    order { total_requests := 0, found_params := [] }
  have hfound : (runScan reSearch method placeholder bl outcomes order).found_params = extra := by
    unfold runScan
    rw [hex]
    simp
  have hnodupextra : (extra.map Finding.param).Nodup := List.Nodup.sublist hsub hnd
  refine ⟨?_, ?_, ?_⟩
  · unfold runScan
    rw [runScanFrom_total reSearch method placeholder bl outcomes order _ hokord]
    simpa using hlen
  · rw [hfound]
    exact hnodupextra
  · intro name
    rw [hfound]
    exact List.nodup_iff_count_le_one.mp hnodupextra name

/-- Witness for C8: two unique names with one worker, both probes
succeeding, give two requests and at most one finding named `"a"`. -/
theorem claim_each_probed_once_witness :
    (runScan eng0 "GET" "FUZZ" ⟨200, 0, false⟩ outcSuccess ["b", "a"]).total_requests = 2 ∧
    ((runScan eng0 "GET" "FUZZ" ⟨200, 0, false⟩ outcSuccess
      ["b", "a"]).found_params.map Finding.param).count "a" ≤ 1 := by
  have h := claim_each_probed_once eng0 "GET" "FUZZ" ⟨200, 0, false⟩ outcSuccess
    ["a", "b"] ["b", "a"] 1 (by decide) (by decide) (by decide) (by decide) (by decide)
  exact ⟨h.1, h.2.2 "a"⟩

/-! ## C3: the baseline signature is modal, but the tie-break is not first-seen -/

/-- The champion fold of Python's `max(..., key=...)` returns the starting
value or a list element, never decreases the key, and dominates every
element's key. -/
theorem foldlMax_spec (key : Nat → Nat) :
    ∀ (l : List Nat) (b : Nat),
      (l.foldl (fun best y => if key y > key best then y else best) b = b ∨
        l.foldl (fun best y => if key y > key best then y else best) b ∈ l) ∧
      key b ≤ key (l.foldl (fun best y => if key y > key best then y else best) b) ∧
      ∀ y ∈ l, key y ≤ key (l.foldl (fun best y => if key y > key best then y else best) b) := by
  intro l
  induction l with
  | nil => intro b; exact ⟨Or.inl rfl, le_refl _, by simp⟩
  | cons a t ih =>
    intro b
    simp only [List.foldl_cons]
    obtain ⟨hmem, hble, hall⟩ := ih (if key a > key b then a else b)
    have hbb' : key b ≤ key (if key a > key b then a else b) := by
      split_ifs with h
      · exact le_of_lt h
      · exact le_refl _
    have hab' : key a ≤ key (if key a > key b then a else b) := by
      split_ifs with h
      · exact le_refl _
      · exact le_of_not_lt h
    refine ⟨?_, le_trans hbb' hble, ?_⟩
    · rcases hmem with h | h
      · rw [h]
        split_ifs with hh
        · exact Or.inr (List.mem_cons_self a t)
        · exact Or.inl rfl
      · exact Or.inr (List.mem_cons_of_mem a h)
    · intro y hy
      rcases List.mem_cons.mp hy with rfl | hyt
      · exact le_trans hab' hble
      · exact hall y hyt

/-- On a nonempty list, `pyMaxByKey` returns an element whose key dominates
the whole list. -/
theorem pyMaxByKey_spec (key : Nat → Nat) (l : List Nat) (hne : l ≠ []) :
    ∃ m, pyMaxByKey key l = .ok m ∧ m ∈ l ∧ ∀ y ∈ l, key y ≤ key m := by
  cases l with
  | nil => exact absurd rfl hne
  | cons x xs =>
    obtain ⟨hmem, hxle, hall⟩ := foldlMax_spec key xs x
    refine ⟨_, rfl, ?_, ?_⟩
    · rcases hmem with h | h
      · rw [h]; exact List.mem_cons_self x xs
      · exact List.mem_cons_of_mem x h
    · intro y hy
      rcases List.mem_cons.mp hy with rfl | hyt
      · exact hxle
      · exact hall y hyt

/-- Counterexample to C3's tie-break: with two samples `[500, 200]` — a
frequency tie — the source iterates `set([500, 200])` in hash-table order
`[200, 500]` and `max` returns `200`, whereas the claimed first-seen
tie-break demands `500`. -/
theorem claim_modal_tiebreak_cex :
    establish_baseline 2 cexSamples =
      .ok { baseline_code := 200, baseline_length := 100, baseline_reflection := false } ∧
    modalFirstSeen (baselineCodes 2 cexSamples) = some 500 ∧
    (200 : Nat) ≠ 500 := by
  refine ⟨rfl, by decide, by decide⟩

/-- C3 (amended): for a positive sample count the final signature's status
code and body length are values of maximal frequency among the samples, and
the reflected flag is true exactly when some sample reflected the
placeholder; but a frequency tie is broken by the iteration order of the
CPython set of observed values (hash-table slot order), not by first-seen
order.  The set-simulation side conditions state that the simulated table
(exact for fewer than five distinct values) holds exactly the observed
values. -/
theorem claim_modal_amended (s : Int) (o : Nat → BaselineSample) (sig : BaselineSig)
    (hok : establish_baseline s o = .ok sig)
    (hc1 : ∀ x ∈ pySetList (baselineCodes s o), x ∈ baselineCodes s o)
    (hc2 : ∀ x ∈ baselineCodes s o, x ∈ pySetList (baselineCodes s o))
    (hl1 : ∀ x ∈ pySetList (baselineLengths s o), x ∈ baselineLengths s o)
    (hl2 : ∀ x ∈ baselineLengths s o, x ∈ pySetList (baselineLengths s o)) :
    sig.baseline_code ∈ baselineCodes s o ∧
    (∀ c ∈ baselineCodes s o,
      (baselineCodes s o).count c ≤ (baselineCodes s o).count sig.baseline_code) ∧
    sig.baseline_length ∈ baselineLengths s o ∧
    (∀ l ∈ baselineLengths s o,
      (baselineLengths s o).count l ≤ (baselineLengths s o).count sig.baseline_length) ∧
    (sig.baseline_reflection = true ↔ ∃ x ∈ sampledBaseline s o, x.reflected = true) := by
  have hne : baselineCodes s o ≠ [] := by
    intro h
    unfold establish_baseline at hok
    rw [h] at hok
    simp at hok
  have hlne : baselineLengths s o ≠ [] := by
    intro h
    apply hne
    unfold baselineCodes
    unfold baselineLengths at h
    rw [List.map_eq_nil_iff] at h
    rw [h]
    rfl
  have hsc : pySetList (baselineCodes s o) ≠ [] := by
    obtain ⟨c, hc⟩ := List.exists_mem_of_ne_nil _ hne
    intro hemp
    have hmem := hc2 c hc
    rw [hemp] at hmem
    exact absurd hmem (List.not_mem_nil c)
  have hsl : pySetList (baselineLengths s o) ≠ [] := by
    obtain ⟨c, hc⟩ := List.exists_mem_of_ne_nil _ hlne
    intro hemp
    have hmem := hl2 c hc
    rw [hemp] at hmem
    exact absurd hmem (List.not_mem_nil c)
  obtain ⟨mL, hmL, hmLmem, hmLmax⟩ :=
    pyMaxByKey_spec (fun v => (baselineLengths s o).count v) _ hsl
  obtain ⟨mC, hmC, hmCmem, hmCmax⟩ :=
    pyMaxByKey_spec (fun v => (baselineCodes s o).count v) _ hsc
  have hcond : ¬(((baselineCodes s o).all (fun c => redirect_codes.contains c) &&
      (baselineCodes s o).isEmpty) = true) := by
    rw [Bool.and_eq_true]
    rintro ⟨-, h2⟩
    rw [List.isEmpty_iff] at h2
    exact hne h2
  unfold establish_baseline at hok
  rw [if_neg hcond, hmL, hmC] at hok
  rw [Except.ok.injEq] at hok
  subst hok
  refine ⟨hc1 mC hmCmem, fun c hc => hmCmax c (hc2 c hc),
    hl1 mL hmLmem, fun l hl => hmLmax l (hl2 l hl), ?_⟩
  show (baselineReflections s o).any id = true ↔ _
  unfold baselineReflections
  simp [List.any_eq_true]

/-- Witness for C3 (amended): the claim's own example — codes
`[200, 200, 500]` and lengths `[100, 105, 100]` — gives the modal signature
`(200, 100)`: `200` occurs in the samples and its frequency dominates
`500`'s. -/
theorem claim_modal_amended_witness :
    (200 : Nat) ∈ baselineCodes 3 modalSamples ∧
    (baselineCodes 3 modalSamples).count 500 ≤ (baselineCodes 3 modalSamples).count 200 := by
  have h := claim_modal_amended 3 modalSamples ⟨200, 100, false⟩ rfl
    (by decide) (by decide) (by decide) (by decide)
  exact ⟨h.1, h.2.1 500 (by decide)⟩

/-! ## C9: a positive sample count is an unstated precondition -/

/-- C9: with `stable_check ≤ 0` no samples are collected and
`establish_baseline` raises before probing begins: the all-redirect check
is vacuously true over the empty code list and indexing its first element
raises `IndexError`; likewise Python's `max` over an empty set raises
(`ValueError`). -/
theorem claim_baseline_precondition (s : Int) (o : Nat → BaselineSample) (hs : s ≤ 0) :
    establish_baseline s o = .error .indexError ∧
    (baselineCodes s o).all (fun c => redirect_codes.contains c) = true ∧
    ∀ key : Nat → Nat, pyMaxByKey key [] = .error .valueError := by
  have hto : s.toNat = 0 := Int.toNat_of_nonpos hs
  have hc : baselineCodes s o = [] := by
    unfold baselineCodes sampledBaseline
    rw [hto]
    rfl
  refine ⟨?_, ?_, fun _ => rfl⟩
  · unfold establish_baseline
    rw [hc]
    rfl
  · rw [hc]
    rfl

/-- Witness for C9: a zero sample count raises `IndexError`. -/
theorem claim_baseline_precondition_witness :
    establish_baseline 0 (fun _ => ⟨200, 100, false⟩) = .error .indexError :=
  (claim_baseline_precondition 0 (fun _ => ⟨200, 100, false⟩) (by decide)).1

/-! ## C5: candidate names are interpolated into patterns without escaping -/

/-- C5 (code bug): `check_error_messages` interpolates the raw candidate
name into its patterns — for the name `"("` every constructed pattern is
structurally invalid (an unterminated group, raising `re.error` at
`re.search`), while escaping the name first, as the spec requires, keeps
every pattern well formed; in particular the constructed patterns differ
from the escaped ones. -/
theorem claim_name_not_escaped :
    ((error_patterns "(").all regexBalanced) = false ∧
    ((error_patterns (reEscape "(")).all regexBalanced) = true ∧
    error_patterns "(" ≠ error_patterns (reEscape "(") := by
  refine ⟨by decide, by decide, by decide⟩

/-! ## C6: no startup validation of the worker count -/

/-- Counterexample to C6: a configuration with zero threads is accepted by
the constructor without any `InvalidConfig` error, and the scan then
spawns zero workers instead of aborting at startup. -/
theorem claim_invalid_config_cex :
    cfg0.threads < 1 ∧ (paraProbeInit cfg0).isOk = true ∧ spawnedWorkers cfg0.threads = 0 := by
  refine ⟨by decide, rfl, by decide⟩

/-- C6 (amended): the constructor performs no validation and always
succeeds, and `scan` spawns exactly `max(threads, 0)` workers — so a
concurrency below 1 silently yields zero workers rather than a fatal
startup error, while any concurrency `t ≥ 1` spawns exactly `t` workers. -/
theorem claim_concurrency_amended (cfg : InitConfig) :
    (paraProbeInit cfg).isOk = true ∧ spawnedWorkers cfg.threads = cfg.threads.toNat :=
  ⟨rfl, by simp [spawnedWorkers]⟩

/-! ## C7: the throughput division is not guarded -/

/-- Counterexample to C7: with zero elapsed time the report's throughput
computation raises `ZeroDivisionError` instead of producing the report. -/
theorem claim_div_guard_cex :
    requestsPerSec 0 0 = .error .zeroDivisionError := by
  unfold requestsPerSec pyTrueDiv
  rw [if_pos rfl]

/-- C7 (amended): the throughput computation divides
`total_requests / elapsed` with no guard: it raises `ZeroDivisionError`
exactly when `elapsed` is zero, and produces the report for any other
elapsed value. -/
theorem claim_div_unguarded (n : Nat) (e : ℚ) :
    (requestsPerSec n e = .error .zeroDivisionError ↔ e = 0) ∧
    ((requestsPerSec n e).isOk = true ↔ e ≠ 0) := by
  unfold requestsPerSec pyTrueDiv
  split_ifs with h
  · simp [h, Except.isOk, Except.toBool]
  · simp [h, Except.isOk, Except.toBool]

/-! ## C10: the bare except swallows every post-request exception -/

/-- C10: any exception the detection chain raises after the request
completed — in particular a regex compile error from an unescaped
candidate name — is swallowed by the bare `except`: the probe reports no
finding and leaves the findings untouched, but `total_requests` has
already been incremented for the completed request. -/
theorem claim_exception_swallowed
    (reSearch : String → String → Except RegexError Bool)
    (method placeholder : String) (bl : BaselineSig) (st : ScanState)
    (param : String) (resp : ProbeResponse) (e : RegexError)
    (hcl : classify reSearch placeholder bl param resp = .error e) :
    test_parameter reSearch method placeholder bl st param (.success resp) =
      (false, { st with total_requests := st.total_requests + 1 }) := by
  simp only [test_parameter, hcl]

/-- Witness for C10: probing the name `"("` against a strict regex engine
raises a compile error on the first constructed pattern; the probe yields
no finding while the request counter advances from 7 to 8. -/
theorem claim_exception_swallowed_witness :
    classify strictEngine "FUZZ" ⟨200, 0, false⟩ "(" ⟨200, "hello"⟩ =
      .error .compileError ∧
    test_parameter strictEngine "GET" "FUZZ" ⟨200, 0, false⟩ ⟨7, []⟩ "("
      (.success ⟨200, "hello"⟩) = (false, ⟨8, []⟩) := by
  have hcl : classify strictEngine "FUZZ" ⟨200, 0, false⟩ "(" ⟨200, "hello"⟩ =
      .error .compileError := rfl
  exact ⟨hcl, claim_exception_swallowed strictEngine "GET" "FUZZ" ⟨200, 0, false⟩
    ⟨7, []⟩ "(" ⟨200, "hello"⟩ .compileError hcl⟩

end Paraprobe
